import Mathlib

/-!
Shallow embedding of `src/ultramsg_action/modules/ultramsg_api.py`
(class `UltramsgAPI`): the inbound webhook parser, the low-level REST
request sender, and the payload-building gateway operations.  Python
dictionaries are modelled as association lists over a JSON-like value
type; dictionary lookups that may raise `KeyError` are modelled in an
`Except String` error monad; the network is modelled as an explicit
`HttpOutcome` input to the request sender.
-/

/-- JSON-like value, the type of Python values that flow through the
module: strings, integers, booleans, objects (dicts) and arrays. -/
inductive Val where
  | vStr (s : String)
  | vInt (n : Int)
  | vBool (b : Bool)
  | vObj (fields : List (String × Val))
  | vList (items : List Val)

/-- Python truthiness of a `Val` (`if result:`): empty string, zero,
`False`, empty dict and empty list are falsy. -/
def truthy : Val → Bool
  | .vStr s => !(s == "")
  | .vInt n => !(n == 0)
  | .vBool b => b
  | .vObj fields => !fields.isEmpty
  | .vList items => !items.isEmpty

/-- Python `d[k]` on a field that may be absent: raises `KeyError` when
the key is missing, modelled as `Except.error`. -/
def getKey (o : Option α) (k : String) : Except String α :=
  match o with
  | some v => Except.ok v
  | none => Except.error ("KeyError: " ++ k)

/-- Sequencing of fallible dictionary accesses (Python statements that
propagate an uncaught exception). -/
def reqBind (e : Except String α) (f : α → Except String β) : Except String β :=
  match e with
  | .ok a => f a
  | .error m => Except.error m

/-- Python `s.replace("@c.us", "")` specialised to the fixed pattern
used by the parser: removes the leftmost occurrence of `@c.us` first and
continues after it (non-overlapping, left to right), like CPython's
`str.replace`. -/
def stripCUsChars : List Char → List Char
  | '@' :: 'c' :: '.' :: 'u' :: 's' :: rest => stripCUsChars rest
  | c :: rest => c :: stripCUsChars rest
  | [] => []

/-- String-level wrapper for `stripCUsChars`. -/
def pyStripCUs (s : String) : String :=
  String.mk (stripCUsChars s.toList)

/-- The nested `data` object of the inbound webhook payload, with one
`Option` field per key the parser reads; `none` models an absent key.
Field types follow the payload structure documented in the source
(`time` a number, `fromMe` a boolean, `quotedMsg` an arbitrary value,
the rest strings). -/
structure InData where
  id : Option String
  time : Option Int
  author : Option String
  fromMe : Option Bool
  «from» : Option String
  «to» : Option String
  body : Option String
  pushname : Option String
  type : Option String
  media : Option String
  quotedMsg : Option Val
  location : Option String

/-- Top-level inbound webhook payload as read by the parser. -/
structure InboundRequest where
  instanceId : Option String
  event_type : Option String
  data : Option InData

/-- Embedding of `UltramsgAPI.parse_inbound_message`.  `none` models an
empty/falsy `request` (the `if request:` guard); field accesses happen
in the source's order, so the first missing required key is the one
reported.  The output is the parser's result dict as an association
list in Python insertion order. -/
def parse_inbound_message (request : Option InboundRequest) : Except String (List (String × Val)) :=
  match request with
  | none => Except.ok []
  | some req =>
    reqBind (getKey req.data "data") fun d =>
    reqBind (getKey d.id "id") fun msgId =>
    reqBind (getKey req.instanceId "instanceId") fun instId =>
    reqBind (getKey req.event_type "event_type") fun eventType =>
    reqBind (getKey d.time "time") fun tm =>
    reqBind (getKey d.author "author") fun author =>
    reqBind (getKey d.fromMe "fromMe") fun fromMe =>
    let senderName := d.pushname.getD ""
    reqBind (getKey d.«from» "from") fun fromNum =>
    reqBind (getKey d.«to» "to") fun toNum =>
    let parentMessage := d.quotedMsg.getD (Val.vStr "")
    let messageType := d.type.getD "unknown"
    reqBind (getKey d.body "body") fun body =>
    let media := d.media.getD ""
    let location := d.location.getD ""
    let base : List (String × Val) :=
      [("message_id", Val.vStr msgId),
       ("instance_id", Val.vStr instId),
       ("event_type", Val.vStr eventType),
       ("time", Val.vInt tm),
       ("author", Val.vStr author),
       ("from_self", Val.vBool fromMe),
       ("sender_name", Val.vStr senderName),
       ("sender_number", Val.vStr (pyStripCUs fromNum)),
       ("agent_number", Val.vStr (pyStripCUs toNum)),
       ("parent_message", parentMessage),
       ("message_type", Val.vStr messageType),
       ("body", Val.vStr body),
       ("media", Val.vStr media),
       ("location", Val.vStr location)]
    Except.ok (if messageType ≠ "chat" then base ++ [("caption", Val.vStr body)] else base)

/-- Whether a fallible computation succeeded (no exception escaped). -/
def isOkE : Except String α → Bool
  | .ok _ => true
  | .error _ => false

/-- Outcome of the underlying HTTP call made by `requests.request`:
either a response (status code, raw text, and the result of parsing the
body as JSON) or a transport-level `RequestException` (timeout or
connection error) carrying its `str(e)` description. -/
inductive HttpOutcome where
  | response (status : Nat) (text : String) (jsonBody : Except String Val)
  | timeout (desc : String)
  | connectionError (desc : String)

/-- Embedding of `UltramsgAPI.send_rest_request`, as a function of the
transport outcome.  A 2xx status returns the parsed JSON body (a body
that is a truthy non-dict would make Python's `result.get` raise an
uncaught `AttributeError`, modelled as `Except.error`); a JSON parse
failure on a 2xx body raises a `RequestException` subclass and is
caught like a transport failure; a non-2xx status and any transport
failure are turned into an error dictionary, never raised. -/
def send_rest_request : HttpOutcome → Except String Val
  | .timeout desc =>
      Except.ok (Val.vObj [("error", Val.vStr ("error while executing ultramsg call: " ++ desc))])
  | .connectionError desc =>
      Except.ok (Val.vObj [("error", Val.vStr ("error while executing ultramsg call: " ++ desc))])
  | .response status text jsonBody =>
      if status / 100 == 2 then
        match jsonBody with
        | .error msg =>
            Except.ok (Val.vObj [("error", Val.vStr ("error while executing ultramsg call: " ++ msg))])
        | .ok result =>
            if truthy result then
              match result with
              | .vObj fields => Except.ok (Val.vObj fields)
              | _ => Except.error "AttributeError: object has no attribute get"
            else
              Except.ok result
      else
        Except.ok (Val.vObj [("error",
          Val.vStr ("Request failed with status code " ++ toString status ++ ", response: " ++ text))])

/-- The arguments a gateway operation hands to `send_rest_request`:
target URL, JSON body, HTTP method and query parameters.  Headers are
omitted: no operation in the source passes any (they default inside
`send_rest_request`). -/
structure OutboundRequest where
  url : String
  data : Option (List (String × Val))
  method : String
  params : Option (List (String × Val))

/-- Embedding of `UltramsgAPI.send_text_message`: the request it hands
to `send_rest_request`. -/
def send_text_message (phone_number message api_url api_key msg_id : String) : OutboundRequest :=
  { url := api_url ++ "/messages/chat",
    data := some [("token", Val.vStr api_key), ("to", Val.vStr phone_number),
                  ("body", Val.vStr message), ("msgId", Val.vStr msg_id)],
    method := "POST", params := none }

/-- Embedding of `UltramsgAPI.send_image`. -/
def send_image (phone_number media_url api_url api_key caption msg_id : String) : OutboundRequest :=
  { url := api_url ++ "/messages/image",
    data := some [("token", Val.vStr api_key), ("to", Val.vStr phone_number),
                  ("image", Val.vStr media_url), ("caption", Val.vStr caption),
                  ("msgId", Val.vStr msg_id)],
    method := "POST", params := none }

/-- Embedding of `UltramsgAPI.send_sticker`. -/
def send_sticker (phone_number media_url api_url api_key msg_id : String) : OutboundRequest :=
  { url := api_url ++ "/messages/sticker",
    data := some [("token", Val.vStr api_key), ("to", Val.vStr phone_number),
                  ("sticker", Val.vStr media_url), ("msgId", Val.vStr msg_id)],
    method := "POST", params := none }

/-- Embedding of `UltramsgAPI.send_document`. -/
def send_document (phone_number media_url api_url api_key filename caption msg_id : String) : OutboundRequest :=
  { url := api_url ++ "/messages/document",
    data := some [("token", Val.vStr api_key), ("to", Val.vStr phone_number),
                  ("filename", Val.vStr filename), ("document", Val.vStr media_url),
                  ("caption", Val.vStr caption), ("msgId", Val.vStr msg_id)],
    method := "POST", params := none }

/-- Embedding of `UltramsgAPI.send_audio`. -/
def send_audio (phone_number media api_url api_key msg_id : String) : OutboundRequest :=
  { url := api_url ++ "/messages/audio",
    data := some [("token", Val.vStr api_key), ("to", Val.vStr phone_number),
                  ("audio", Val.vStr media), ("msgId", Val.vStr msg_id)],
    method := "POST", params := none }

/-- Embedding of `UltramsgAPI.send_voice`. -/
def send_voice (phone_number media api_url api_key msg_id : String) : OutboundRequest :=
  { url := api_url ++ "/messages/voice",
    data := some [("token", Val.vStr api_key), ("to", Val.vStr phone_number),
                  ("audio", Val.vStr media), ("msgId", Val.vStr msg_id)],
    method := "POST", params := none }

/-- Embedding of `UltramsgAPI.send_video`. -/
def send_video (phone_number media_url api_url api_key caption msg_id : String) : OutboundRequest :=
  { url := api_url ++ "/messages/video",
    data := some [("token", Val.vStr api_key), ("to", Val.vStr phone_number),
                  ("video", Val.vStr media_url), ("caption", Val.vStr caption),
                  ("msgId", Val.vStr msg_id)],
    method := "POST", params := none }

/-- Embedding of `UltramsgAPI.send_contact`. -/
def send_contact (phone_number contact api_url api_key msg_id : String) : OutboundRequest :=
  { url := api_url ++ "/messages/contact",
    data := some [("token", Val.vStr api_key), ("to", Val.vStr phone_number),
                  ("contact", Val.vStr contact), ("msgId", Val.vStr msg_id)],
    method := "POST", params := none }

/-- Embedding of `UltramsgAPI.send_location`.  `lat` and `lng` are
Python floats carried into the payload untouched; they are modelled as
integers since no arithmetic is performed on them. -/
def send_location (phone_number address : String) (lat lng : Int) (api_url api_key msg_id : String) : OutboundRequest :=
  { url := api_url ++ "/messages/location",
    data := some [("token", Val.vStr api_key), ("to", Val.vStr phone_number),
                  ("address", Val.vStr address), ("lat", Val.vInt lat),
                  ("lng", Val.vInt lng), ("msgId", Val.vStr msg_id)],
    method := "POST", params := none }

/-- Embedding of `UltramsgAPI.send_vcard`. -/
def send_vcard (phone_number vcard api_url api_key msg_id : String) : OutboundRequest :=
  { url := api_url ++ "/messages/vcard",
    data := some [("token", Val.vStr api_key), ("to", Val.vStr phone_number),
                  ("vcard", Val.vStr vcard), ("msgId", Val.vStr msg_id)],
    method := "POST", params := none }

/-- Embedding of `UltramsgAPI.send_reaction`. -/
def send_reaction (msg_id reaction api_url api_key : String) : OutboundRequest :=
  { url := api_url ++ "/messages/reaction",
    data := some [("token", Val.vStr api_key), ("msgId", Val.vStr msg_id),
                  ("emoji", Val.vStr reaction)],
    method := "POST", params := none }

/-- Embedding of `UltramsgAPI.delete_message`. -/
def delete_message (msg_id api_url api_key : String) : OutboundRequest :=
  { url := api_url ++ "/messages/delete",
    data := some [("token", Val.vStr api_key), ("msgId", Val.vStr msg_id)],
    method := "POST", params := none }

/-- Embedding of `UltramsgAPI.send_by_status`. -/
def send_by_status (status api_url api_key : String) : OutboundRequest :=
  { url := api_url ++ "/messages/resendByStatus",
    data := some [("token", Val.vStr api_key), ("status", Val.vStr status)],
    method := "POST", params := none }

/-- Embedding of `UltramsgAPI.send_by_id`. -/
def send_by_id (id api_url api_key : String) : OutboundRequest :=
  { url := api_url ++ "/messages/resendById",
    data := some [("token", Val.vStr api_key), ("id", Val.vStr id)],
    method := "POST", params := none }

/-- Embedding of `UltramsgAPI.clear_messages`. -/
def clear_messages (status api_url api_key : String) : OutboundRequest :=
  { url := api_url ++ "/messages/clear",
    data := some [("token", Val.vStr api_key), ("status", Val.vStr status)],
    method := "POST", params := none }

/-- Embedding of `UltramsgAPI.get_messages`. -/
def get_messages (page limit : Int) (status sort api_url api_key : String) : OutboundRequest :=
  { url := api_url ++ "/messages",
    data := some [("token", Val.vStr api_key), ("page", Val.vInt page),
                  ("limit", Val.vInt limit), ("status", Val.vStr status),
                  ("sort", Val.vStr sort)],
    method := "POST", params := none }

/-- Embedding of `UltramsgAPI.get_statistics`. -/
def get_statistics (api_url api_key : String) : OutboundRequest :=
  { url := api_url ++ "/messages/statistics",
    data := some [("token", Val.vStr api_key)],
    method := "POST", params := none }

/-- Embedding of `UltramsgAPI.get_instance_status`. -/
def get_instance_status (api_url api_key : String) : OutboundRequest :=
  { url := api_url ++ "/instance/status",
    data := some [("token", Val.vStr api_key)],
    method := "POST", params := none }

/-- Embedding of `UltramsgAPI.get_qr_image`. -/
def get_qr_image (api_url api_key : String) : OutboundRequest :=
  { url := api_url ++ "/instance/qr",
    data := some [("token", Val.vStr api_key)],
    method := "POST", params := none }

/-- Embedding of `UltramsgAPI.get_authentication_qr`. -/
def get_authentication_qr (api_url api_key : String) : OutboundRequest :=
  { url := api_url ++ "/instance/qrCode",
    data := some [("token", Val.vStr api_key)],
    method := "POST", params := none }

/-- Embedding of `UltramsgAPI.get_connected_phones`. -/
def get_connected_phones (api_url api_key : String) : OutboundRequest :=
  { url := api_url ++ "/instance/me",
    data := some [("token", Val.vStr api_key)],
    method := "POST", params := none }

/-- Embedding of `UltramsgAPI.get_instance_settings` (the one operation
that passes `params` and `method="GET"`). -/
def get_instance_settings (api_url api_key : String) : OutboundRequest :=
  { url := api_url ++ "/instance/settings",
    data := none,
    method := "GET",
    params := some [("token", Val.vStr api_key)] }

/-- Embedding of `UltramsgAPI.logout`. -/
def logout (api_url api_key : String) : OutboundRequest :=
  { url := api_url ++ "/instance/logout",
    data := some [("token", Val.vStr api_key)],
    method := "POST", params := none }

/-- Embedding of `UltramsgAPI.restart_instance`. -/
def restart_instance (api_url api_key : String) : OutboundRequest :=
  { url := api_url ++ "/instance/restart",
    data := some [("token", Val.vStr api_key)],
    method := "POST", params := none }

/-- Embedding of `UltramsgAPI.update_instance_settings`. -/
def update_instance_settings (webhook_url : String) (send_delay : Int)
    (webhook_message_received webhook_message_create webhook_message_ack
     webhook_message_download_media api_url api_key : String) : OutboundRequest :=
  { url := api_url ++ "/instance/settings",
    data := some [("token", Val.vStr api_key), ("sendDelay", Val.vInt send_delay),
                  ("webhook_url", Val.vStr webhook_url),
                  ("webhook_message_received", Val.vStr webhook_message_received),
                  ("webhook_message_create", Val.vStr webhook_message_create),
                  ("webhook_message_ack", Val.vStr webhook_message_ack),
                  ("webhook_message_download_media", Val.vStr webhook_message_download_media)],
    method := "POST", params := none }

/-- Embedding of `UltramsgAPI.clear_settings`. -/
def clear_settings (api_url api_key : String) : OutboundRequest :=
  { url := api_url ++ "/instance/clear",
    data := some [("token", Val.vStr api_key)],
    method := "POST", params := none }

/-- Embedding of `UltramsgAPI.mark_as_read`: the only gateway operation
whose URL is hard-coded to the `https://api.ultramsg.com` host; it takes
no API base URL argument at all. -/
def mark_as_read (phone_number instance_id api_key : String) : OutboundRequest :=
  { url := "https://api.ultramsg.com/" ++ instance_id ++ "/chats/read",
    data := some [("token", Val.vStr api_key), ("chatId", Val.vStr phone_number)],
    method := "POST", params := none }

/-- Modelled from the spec: `get_file_type` is described in the spec
(MIME classification of media) but the function is not present under
`src/`; only the parser, request sender and gateway operations are.
Result shape `MediaClassification` from the spec's data model. -/
structure MediaClassification where
  file_type : String
  mime : String

/-- Modelled from the spec: characters of the extension after the last
dot of a path, if any. -/
def extAfterDot : List Char → Option (List Char) → Option (List Char)
  | [], acc => acc
  | '.' :: rest, _ => extAfterDot rest (some [])
  | _ :: rest, none => extAfterDot rest none
  | c :: rest, some acc => extAfterDot rest (some (acc ++ [c]))

/-- Modelled from the spec: the file extension of a path (text after
the last dot), empty when the path has no dot. -/
def file_extension (path : String) : String :=
  match extAfterDot path.toList none with
  | some cs => String.mk cs
  | none => ""

/-- Modelled from the spec: static extension-to-MIME lookup table used
when classifying by file-path extension. -/
def extension_mime_table : List (String × String) :=
  [("pdf", "application/pdf"), ("doc", "application/msword"),
   ("txt", "text/plain"),
   ("jpg", "image/jpeg"), ("jpeg", "image/jpeg"), ("png", "image/png"),
   ("gif", "image/gif"),
   ("mp3", "audio/mpeg"), ("ogg", "audio/ogg"), ("wav", "audio/wav"),
   ("mp4", "video/mp4"), ("avi", "video/avi")]

/-- Modelled from the spec: static lookup tables classifying a MIME
type into the image/document/audio/video classes. -/
def image_mimes : List String := ["image/jpeg", "image/png", "image/gif"]

/-- Modelled from the spec: MIME types classified as documents. -/
def document_mimes : List String := ["application/pdf", "application/msword", "text/plain"]

/-- Modelled from the spec: MIME types classified as audio. -/
def audio_mimes : List String := ["audio/mpeg", "audio/ogg", "audio/wav"]

/-- Modelled from the spec: MIME types classified as video. -/
def video_mimes : List String := ["video/mp4", "video/avi"]

/-- Modelled from the spec: classify a MIME string into
`image`, `document`, `audio`, `video` or `unknown` via the static
lookup tables; an unmatched MIME type yields `unknown`. -/
def classify_mime (mime : String) : String :=
  if image_mimes.contains mime then "image"
  else if document_mimes.contains mime then "document"
  else if audio_mimes.contains mime then "audio"
  else if video_mimes.contains mime then "video"
  else "unknown"

/-- Modelled from the spec: `get_file_type` on the file-path branch
(the highest-priority MIME source): detect the MIME from the path's
extension, falling back to `unknown/unknown` for an unrecognized
extension, then classify it, preserving the detected MIME string. -/
def get_file_type (path : String) : MediaClassification :=
  let mime := (List.lookup (file_extension path) extension_mime_table).getD "unknown/unknown"
  { file_type := classify_mime mime, mime := mime }

/-- C1: for every HTTP response with a non-2xx status code,
`send_rest_request` returns the dictionary
`error = "Request failed with status code <status>, response: <text>"`
and does not raise an exception to the caller. -/
theorem send_rest_request_non2xx (status : Nat) (text : String) (body : Except String Val)
    (h : status / 100 ≠ 2) :
    send_rest_request (.response status text body) =
      Except.ok (Val.vObj [("error",
        Val.vStr ("Request failed with status code " ++ toString status ++ ", response: " ++ text))]) := by
  unfold send_rest_request
  simp [h]

/-- Witness for C1 at a concrete 404 response. -/
theorem send_rest_request_non2xx_witness :
    send_rest_request (.response 404 "Not Found" (.ok (.vObj []))) =
      Except.ok (Val.vObj [("error",
        Val.vStr "Request failed with status code 404, response: Not Found")]) := by
  exact send_rest_request_non2xx 404 "Not Found" (.ok (.vObj [])) (by decide)

/-- C2: for every 2xx response whose parsed JSON body is a dictionary
containing a non-empty (truthy) `error` field, `send_rest_request`
returns that parsed body unchanged without raising. -/
theorem send_rest_request_2xx_error_body (status : Nat) (text : String)
    (fields : List (String × Val)) (ev : Val)
    (h2 : status / 100 = 2) (herr : List.lookup "error" fields = some ev)
    (_htr : truthy ev = true) :
    send_rest_request (.response status text (.ok (.vObj fields))) =
      Except.ok (Val.vObj fields) := by
  cases fields with
  | nil => simp [List.lookup] at herr
  | cons p rest => simp [send_rest_request, h2, truthy]

/-- Witness for C2 at a concrete 200 response with body `error = "x"`. -/
theorem send_rest_request_2xx_error_body_witness :
    send_rest_request (.response 200 "ok" (.ok (.vObj [("error", Val.vStr "x")]))) =
      Except.ok (Val.vObj [("error", Val.vStr "x")]) := by
  exact send_rest_request_2xx_error_body 200 "ok" [("error", Val.vStr "x")] (Val.vStr "x")
    (by decide) (by rfl) (by rfl)

/-- C3 counterexample: at a concrete timeout, `send_rest_request`
returns `error = "error while executing ultramsg call: timed out"`,
whose message does not even start with `"Timeout after "`, so it is not
`"Timeout after <n> seconds"` for any `n`. -/
theorem send_rest_request_timeout_message :
    send_rest_request (.timeout "timed out") =
      Except.ok (Val.vObj [("error",
        Val.vStr "error while executing ultramsg call: timed out")]) ∧
    "Timeout after ".toList.isPrefixOf "error while executing ultramsg call: timed out".toList = false :=
  ⟨rfl, by decide⟩

/-- C3 (amended): for every transport-level failure (timeout or
connection error), `send_rest_request` never raises to its caller and
returns `error = "error while executing ultramsg call: <description>"`,
including in the timeout case. -/
theorem send_rest_request_transport_failure (desc : String) :
    send_rest_request (.timeout desc) =
      Except.ok (Val.vObj [("error",
        Val.vStr ("error while executing ultramsg call: " ++ desc))]) ∧
    send_rest_request (.connectionError desc) =
      Except.ok (Val.vObj [("error",
        Val.vStr ("error while executing ultramsg call: " ++ desc))]) :=
  ⟨rfl, rfl⟩

/-- Lookup of a key in the parser's (fallible) output dictionary:
`none` both when the key is absent and when the parser failed. -/
def lookupField (e : Except String (List (String × Val))) (k : String) : Option Val :=
  match e with
  | .ok out => List.lookup k out
  | .error _ => none

/-- Shape of the parser output on a payload with all required fields
present: the exact association list built by the source, with the
`caption` entry appended exactly when the message type is not `chat`. -/
theorem parse_inbound_some_eq (req : InboundRequest) (d : InData)
    (ii ev i au fr tv b : String) (tm : Int) (fm : Bool)
    (hd : req.data = some d) (hii : req.instanceId = some ii) (hev : req.event_type = some ev)
    (hi : d.id = some i) (htm : d.time = some tm) (hau : d.author = some au)
    (hfm : d.fromMe = some fm) (hfr : d.«from» = some fr) (htv : d.«to» = some tv)
    (hb : d.body = some b) :
    parse_inbound_message (some req) = Except.ok (
      [("message_id", Val.vStr i),
       ("instance_id", Val.vStr ii),
       ("event_type", Val.vStr ev),
       ("time", Val.vInt tm),
       ("author", Val.vStr au),
       ("from_self", Val.vBool fm),
       ("sender_name", Val.vStr (d.pushname.getD "")),
       ("sender_number", Val.vStr (pyStripCUs fr)),
       ("agent_number", Val.vStr (pyStripCUs tv)),
       ("parent_message", d.quotedMsg.getD (Val.vStr "")),
       ("message_type", Val.vStr (d.type.getD "unknown")),
       ("body", Val.vStr b),
       ("media", Val.vStr (d.media.getD "")),
       ("location", Val.vStr (d.location.getD ""))]
      ++ (if d.type.getD "unknown" ≠ "chat" then [("caption", Val.vStr b)] else [])) := by
  by_cases hty : d.type.getD "unknown" = "chat" <;>
    simp [parse_inbound_message, getKey, reqBind, hd, hii, hev, hi, htm, hau, hfm, hfr,
      htv, hb, hty]

/-- C5: the parser returns an empty mapping on an empty/falsy input,
and on a non-empty input it fails (with a key-error) exactly when one
of the required fields `data.id`, `data.time`, `data.author`,
`data.fromMe`, `data.from`, `data.to`, `data.body` (or the top-level
`instanceId`/`event_type`) is missing — a missing `data` object makes
all of them missing; no other input makes it fail. -/
theorem parse_inbound_message_required_fields :
    parse_inbound_message none = Except.ok [] ∧
    ∀ req : InboundRequest,
      isOkE (parse_inbound_message (some req)) = true ↔
        ((∃ d, req.data = some d ∧ d.id.isSome = true ∧ d.time.isSome = true ∧
           d.author.isSome = true ∧ d.fromMe.isSome = true ∧ d.«from».isSome = true ∧
           d.«to».isSome = true ∧ d.body.isSome = true) ∧
         req.instanceId.isSome = true ∧ req.event_type.isSome = true) := by
  refine ⟨rfl, ?_⟩
  intro req
  obtain ⟨ii, ev, dat⟩ := req
  cases dat with
  | none => simp [parse_inbound_message, getKey, reqBind, isOkE]
  | some d =>
    obtain ⟨i, tm, au, fm, fr, tv, b, pn, ty, md, qm, loc⟩ := d
    cases i <;> cases tm <;> cases au <;> cases fm <;> cases fr <;> cases tv <;> cases b <;>
      cases ii <;> cases ev <;>
        simp [parse_inbound_message, getKey, reqBind, isOkE]

/-- C4 counterexample: on a well-formed payload with
`data.author = "999@c.us"`, the parser's output `author` value is
`"999@c.us"`, which still ends in `@c.us` — only `from` and `to` are
stripped, `author` is copied verbatim. -/
theorem parse_inbound_message_author_kept :
    parse_inbound_message (some
      { instanceId := some "instance1", event_type := some "message_received",
        data := some
          { id := some "msg1", time := some 1234567890, author := some "999@c.us",
            fromMe := some false, «from» := some "1555@c.us", «to» := some "1666@c.us",
            body := some "hello", pushname := some "Alice", type := some "chat",
            media := some "", quotedMsg := none, location := none } }) =
      Except.ok
        [("message_id", Val.vStr "msg1"),
         ("instance_id", Val.vStr "instance1"),
         ("event_type", Val.vStr "message_received"),
         ("time", Val.vInt 1234567890),
         ("author", Val.vStr "999@c.us"),
         ("from_self", Val.vBool false),
         ("sender_name", Val.vStr "Alice"),
         ("sender_number", Val.vStr "1555"),
         ("agent_number", Val.vStr "1666"),
         ("parent_message", Val.vStr ""),
         ("message_type", Val.vStr "chat"),
         ("body", Val.vStr "hello"),
         ("media", Val.vStr ""),
         ("location", Val.vStr "")] ∧
    "@c.us".toList.isSuffixOf "999@c.us".toList = true :=
  ⟨rfl, by decide⟩

/-- C4 (amended): on every well-formed payload the parser sets
`sender_number` and `agent_number` to `data.from` and `data.to` with
every (leftmost, non-overlapping) occurrence of `@c.us` removed, while
`author` is copied to the output unchanged, without any stripping. -/
theorem parse_inbound_message_strips_from_to (req : InboundRequest) (d : InData)
    (ii ev i au fr tv b : String) (tm : Int) (fm : Bool)
    (hd : req.data = some d) (hii : req.instanceId = some ii) (hev : req.event_type = some ev)
    (hi : d.id = some i) (htm : d.time = some tm) (hau : d.author = some au)
    (hfm : d.fromMe = some fm) (hfr : d.«from» = some fr) (htv : d.«to» = some tv)
    (hb : d.body = some b) :
    lookupField (parse_inbound_message (some req)) "sender_number" =
      some (Val.vStr (pyStripCUs fr)) ∧
    lookupField (parse_inbound_message (some req)) "agent_number" =
      some (Val.vStr (pyStripCUs tv)) ∧
    lookupField (parse_inbound_message (some req)) "author" = some (Val.vStr au) := by
  rw [parse_inbound_some_eq req d ii ev i au fr tv b tm fm hd hii hev hi htm hau hfm hfr htv hb]
  by_cases hty : d.type.getD "unknown" = "chat" <;> simp [hty, lookupField, List.lookup]

/-- Witness for C4 (amended) at a concrete payload: `1555@c.us` and
`1666@c.us` are stripped to `1555` and `1666`, `999@c.us` stays. -/
theorem parse_inbound_message_strips_from_to_witness :
    lookupField (parse_inbound_message (some
      { instanceId := some "instance1", event_type := some "message_received",
        data := some
          { id := some "msg1", time := some 1234567890, author := some "999@c.us",
            fromMe := some false, «from» := some "1555@c.us", «to» := some "1666@c.us",
            body := some "hello", pushname := some "Alice", type := some "image",
            media := some "", quotedMsg := none, location := none } }))
      "sender_number" = some (Val.vStr "1555") ∧
    lookupField (parse_inbound_message (some
      { instanceId := some "instance1", event_type := some "message_received",
        data := some
          { id := some "msg1", time := some 1234567890, author := some "999@c.us",
            fromMe := some false, «from» := some "1555@c.us", «to» := some "1666@c.us",
            body := some "hello", pushname := some "Alice", type := some "image",
            media := some "", quotedMsg := none, location := none } }))
      "agent_number" = some (Val.vStr "1666") ∧
    lookupField (parse_inbound_message (some
      { instanceId := some "instance1", event_type := some "message_received",
        data := some
          { id := some "msg1", time := some 1234567890, author := some "999@c.us",
            fromMe := some false, «from» := some "1555@c.us", «to» := some "1666@c.us",
            body := some "hello", pushname := some "Alice", type := some "image",
            media := some "", quotedMsg := none, location := none } }))
      "author" = some (Val.vStr "999@c.us") := by
  exact parse_inbound_message_strips_from_to _ _ "instance1" "message_received" "msg1"
    "999@c.us" "1555@c.us" "1666@c.us" "hello" 1234567890 false
    rfl rfl rfl rfl rfl rfl rfl rfl rfl rfl

/-- C6: on every well-formed payload the parser sets `message_type` to
`data.type` (defaulting to `unknown` when absent), and the output has a
`caption` key, equal to the output `body`, exactly when the message
type is not `chat`; when it is `chat` there is no `caption` key. -/
theorem parse_inbound_message_type_caption (req : InboundRequest) (d : InData)
    (ii ev i au fr tv b : String) (tm : Int) (fm : Bool)
    (hd : req.data = some d) (hii : req.instanceId = some ii) (hev : req.event_type = some ev)
    (hi : d.id = some i) (htm : d.time = some tm) (hau : d.author = some au)
    (hfm : d.fromMe = some fm) (hfr : d.«from» = some fr) (htv : d.«to» = some tv)
    (hb : d.body = some b) :
    lookupField (parse_inbound_message (some req)) "message_type" =
      some (Val.vStr (d.type.getD "unknown")) ∧
    lookupField (parse_inbound_message (some req)) "body" = some (Val.vStr b) ∧
    (d.type.getD "unknown" ≠ "chat" →
      lookupField (parse_inbound_message (some req)) "caption" = some (Val.vStr b)) ∧
    (d.type.getD "unknown" = "chat" →
      lookupField (parse_inbound_message (some req)) "caption" = none) := by
  rw [parse_inbound_some_eq req d ii ev i au fr tv b tm fm hd hii hev hi htm hau hfm hfr htv hb]
  by_cases hty : d.type.getD "unknown" = "chat" <;> simp [hty, lookupField, List.lookup]

/-- Witness for C6 at two concrete payloads: with `data.type = "image"`
the output has `caption = body`; with `data.type = "chat"` it has no
`caption` key. -/
theorem parse_inbound_message_type_caption_witness :
    lookupField (parse_inbound_message (some
      { instanceId := some "instance1", event_type := some "message_received",
        data := some
          { id := some "msg1", time := some 1, author := some "999",
            fromMe := some false, «from» := some "1555@c.us", «to» := some "1666@c.us",
            body := some "hello", pushname := none, type := some "image",
            media := none, quotedMsg := none, location := none } }))
      "caption" = some (Val.vStr "hello") ∧
    lookupField (parse_inbound_message (some
      { instanceId := some "instance1", event_type := some "message_received",
        data := some
          { id := some "msg1", time := some 1, author := some "999",
            fromMe := some false, «from» := some "1555@c.us", «to» := some "1666@c.us",
            body := some "hello", pushname := none, type := some "chat",
            media := none, quotedMsg := none, location := none } }))
      "caption" = none := by
  constructor
  · exact ((parse_inbound_message_type_caption _ _ "instance1" "message_received" "msg1"
      "999" "1555@c.us" "1666@c.us" "hello" 1 false
      rfl rfl rfl rfl rfl rfl rfl rfl rfl rfl).2.2.1 (by decide))
  · exact ((parse_inbound_message_type_caption _ _ "instance1" "message_received" "msg1"
      "999" "1555@c.us" "1666@c.us" "hello" 1 false
      rfl rfl rfl rfl rfl rfl rfl rfl rfl rfl).2.2.2 (by rfl))

/-- Key list of an operation's JSON payload, in insertion order. -/
def payloadKeys (r : OutboundRequest) : Option (List String) :=
  r.data.map (fun l => l.map Prod.fst)

/-- The access-token entry of an operation's JSON payload. -/
def tokenOf (r : OutboundRequest) : Option Val :=
  r.data.bind (List.lookup "token")

/-- C7: every send operation builds a payload with exactly its
documented keys, always carrying the access token under `token`, and
addresses its fixed operation-specific endpoint suffix under the
caller-supplied API base URL. -/
theorem send_operations_payloads :
    (∀ pn msg au ak mid, (send_text_message pn msg au ak mid).url = au ++ "/messages/chat" ∧
      payloadKeys (send_text_message pn msg au ak mid) = some ["token", "to", "body", "msgId"] ∧
      tokenOf (send_text_message pn msg au ak mid) = some (Val.vStr ak)) ∧
    (∀ pn mu au ak cap mid, (send_image pn mu au ak cap mid).url = au ++ "/messages/image" ∧
      payloadKeys (send_image pn mu au ak cap mid) =
        some ["token", "to", "image", "caption", "msgId"] ∧
      tokenOf (send_image pn mu au ak cap mid) = some (Val.vStr ak)) ∧
    (∀ pn mu au ak mid, (send_sticker pn mu au ak mid).url = au ++ "/messages/sticker" ∧
      payloadKeys (send_sticker pn mu au ak mid) = some ["token", "to", "sticker", "msgId"] ∧
      tokenOf (send_sticker pn mu au ak mid) = some (Val.vStr ak)) ∧
    (∀ pn mu au ak fn cap mid, (send_document pn mu au ak fn cap mid).url = au ++ "/messages/document" ∧
      payloadKeys (send_document pn mu au ak fn cap mid) =
        some ["token", "to", "filename", "document", "caption", "msgId"] ∧
      tokenOf (send_document pn mu au ak fn cap mid) = some (Val.vStr ak)) ∧
    (∀ pn m au ak mid, (send_audio pn m au ak mid).url = au ++ "/messages/audio" ∧
      payloadKeys (send_audio pn m au ak mid) = some ["token", "to", "audio", "msgId"] ∧
      tokenOf (send_audio pn m au ak mid) = some (Val.vStr ak)) ∧
    (∀ pn m au ak mid, (send_voice pn m au ak mid).url = au ++ "/messages/voice" ∧
      payloadKeys (send_voice pn m au ak mid) = some ["token", "to", "audio", "msgId"] ∧
      tokenOf (send_voice pn m au ak mid) = some (Val.vStr ak)) ∧
    (∀ pn mu au ak cap mid, (send_video pn mu au ak cap mid).url = au ++ "/messages/video" ∧
      payloadKeys (send_video pn mu au ak cap mid) =
        some ["token", "to", "video", "caption", "msgId"] ∧
      tokenOf (send_video pn mu au ak cap mid) = some (Val.vStr ak)) ∧
    (∀ pn c au ak mid, (send_contact pn c au ak mid).url = au ++ "/messages/contact" ∧
      payloadKeys (send_contact pn c au ak mid) = some ["token", "to", "contact", "msgId"] ∧
      tokenOf (send_contact pn c au ak mid) = some (Val.vStr ak)) ∧
    (∀ pn ad lat lng au ak mid, (send_location pn ad lat lng au ak mid).url = au ++ "/messages/location" ∧
      payloadKeys (send_location pn ad lat lng au ak mid) =
        some ["token", "to", "address", "lat", "lng", "msgId"] ∧
      tokenOf (send_location pn ad lat lng au ak mid) = some (Val.vStr ak)) ∧
    (∀ pn vc au ak mid, (send_vcard pn vc au ak mid).url = au ++ "/messages/vcard" ∧
      payloadKeys (send_vcard pn vc au ak mid) = some ["token", "to", "vcard", "msgId"] ∧
      tokenOf (send_vcard pn vc au ak mid) = some (Val.vStr ak)) ∧
    (∀ mid re au ak, (send_reaction mid re au ak).url = au ++ "/messages/reaction" ∧
      payloadKeys (send_reaction mid re au ak) = some ["token", "msgId", "emoji"] ∧
      tokenOf (send_reaction mid re au ak) = some (Val.vStr ak)) :=
  ⟨fun _ _ _ _ _ => ⟨rfl, rfl, rfl⟩, fun _ _ _ _ _ _ => ⟨rfl, rfl, rfl⟩,
   fun _ _ _ _ _ => ⟨rfl, rfl, rfl⟩, fun _ _ _ _ _ _ _ => ⟨rfl, rfl, rfl⟩,
   fun _ _ _ _ _ => ⟨rfl, rfl, rfl⟩, fun _ _ _ _ _ => ⟨rfl, rfl, rfl⟩,
   fun _ _ _ _ _ _ => ⟨rfl, rfl, rfl⟩, fun _ _ _ _ _ => ⟨rfl, rfl, rfl⟩,
   fun _ _ _ _ _ _ _ => ⟨rfl, rfl, rfl⟩, fun _ _ _ _ _ => ⟨rfl, rfl, rfl⟩,
   fun _ _ _ _ => ⟨rfl, rfl, rfl⟩⟩

/-- C8 counterexample: at concrete arguments both the instance-status
and QR-image operations use HTTP method `POST` (the request sender's
default), not `GET`. -/
theorem instance_status_qr_not_get :
    (get_instance_status "https://api.ultramsg.com/instance1" "key1").method = "POST" ∧
    (get_instance_status "https://api.ultramsg.com/instance1" "key1").method ≠ "GET" ∧
    (get_qr_image "https://api.ultramsg.com/instance1" "key1").method = "POST" ∧
    (get_qr_image "https://api.ultramsg.com/instance1" "key1").method ≠ "GET" :=
  ⟨rfl, by decide, rfl, by decide⟩

/-- C8 (amended): the instance-status operation sends its request to
the endpoint suffix `instance/status` and the QR-image operation to
`instance/qr`, both as HTTP POST requests (the request sender's default
method) with the token in the JSON body. -/
theorem instance_status_qr_endpoints (api_url api_key : String) :
    (get_instance_status api_url api_key).url = api_url ++ "/instance/status" ∧
    (get_instance_status api_url api_key).method = "POST" ∧
    (get_instance_status api_url api_key).data = some [("token", Val.vStr api_key)] ∧
    (get_qr_image api_url api_key).url = api_url ++ "/instance/qr" ∧
    (get_qr_image api_url api_key).method = "POST" ∧
    (get_qr_image api_url api_key).data = some [("token", Val.vStr api_key)] :=
  ⟨rfl, rfl, rfl, rfl, rfl, rfl⟩

/-- C9: a `.pdf` path classifies as a document with MIME
`application/pdf`, an unrecognized extension classifies as
`unknown` with MIME `unknown/unknown`, and every MIME type matched by
none of the lookup tables classifies as `unknown` with the detected
MIME string preserved. -/
theorem get_file_type_classification :
    get_file_type "file.pdf" = ⟨"document", "application/pdf"⟩ ∧
    get_file_type "file.xyz" = ⟨"unknown", "unknown/unknown"⟩ ∧
    ∀ m : String, m ∉ image_mimes → m ∉ document_mimes →
      m ∉ audio_mimes → m ∉ video_mimes →
      ({ file_type := classify_mime m, mime := m } : MediaClassification) =
        ⟨"unknown", m⟩ := by
  refine ⟨rfl, rfl, ?_⟩
  intro m h1 h2 h3 h4
  simp [classify_mime, h1, h2, h3, h4]

/-- Witness for C9: the `.pdf` case, plus a concrete MIME type
(`application/zip`) absent from every table classifying as `unknown`
with the MIME preserved. -/
theorem get_file_type_classification_witness :
    get_file_type "file.pdf" = ⟨"document", "application/pdf"⟩ ∧
    ({ file_type := classify_mime "application/zip", mime := "application/zip" } :
        MediaClassification) = ⟨"unknown", "application/zip"⟩ :=
  ⟨get_file_type_classification.1,
   get_file_type_classification.2.2 "application/zip" (by decide) (by decide)
     (by decide) (by decide)⟩

/-- C10: `mark_as_read` posts to the hard-coded
`https://api.ultramsg.com/<instance_id>/chats/read` URL — it takes no
API base URL argument at all — while every other gateway operation
builds its URL by prefixing the caller-supplied `api_url` onto its
endpoint suffix. -/
theorem mark_as_read_fixed_host :
    (∀ pn iid ak, (mark_as_read pn iid ak).url =
      "https://api.ultramsg.com/" ++ iid ++ "/chats/read") ∧
    (∀ pn msg au ak mid, (send_text_message pn msg au ak mid).url = au ++ "/messages/chat") ∧
    (∀ pn mu au ak cap mid, (send_image pn mu au ak cap mid).url = au ++ "/messages/image") ∧
    (∀ pn mu au ak mid, (send_sticker pn mu au ak mid).url = au ++ "/messages/sticker") ∧
    (∀ pn mu au ak fn cap mid, (send_document pn mu au ak fn cap mid).url = au ++ "/messages/document") ∧
    (∀ pn m au ak mid, (send_audio pn m au ak mid).url = au ++ "/messages/audio") ∧
    (∀ pn m au ak mid, (send_voice pn m au ak mid).url = au ++ "/messages/voice") ∧
    (∀ pn mu au ak cap mid, (send_video pn mu au ak cap mid).url = au ++ "/messages/video") ∧
    (∀ pn c au ak mid, (send_contact pn c au ak mid).url = au ++ "/messages/contact") ∧
    (∀ pn ad lat lng au ak mid, (send_location pn ad lat lng au ak mid).url = au ++ "/messages/location") ∧
    (∀ pn vc au ak mid, (send_vcard pn vc au ak mid).url = au ++ "/messages/vcard") ∧
    (∀ mid re au ak, (send_reaction mid re au ak).url = au ++ "/messages/reaction") ∧
    (∀ mid au ak, (delete_message mid au ak).url = au ++ "/messages/delete") ∧
    (∀ st au ak, (send_by_status st au ak).url = au ++ "/messages/resendByStatus") ∧
    (∀ i au ak, (send_by_id i au ak).url = au ++ "/messages/resendById") ∧
    (∀ st au ak, (clear_messages st au ak).url = au ++ "/messages/clear") ∧
    (∀ pg lim st so au ak, (get_messages pg lim st so au ak).url = au ++ "/messages") ∧
    (∀ au ak, (get_statistics au ak).url = au ++ "/messages/statistics") ∧
    (∀ au ak, (get_instance_status au ak).url = au ++ "/instance/status") ∧
    (∀ au ak, (get_qr_image au ak).url = au ++ "/instance/qr") ∧
    (∀ au ak, (get_authentication_qr au ak).url = au ++ "/instance/qrCode") ∧
    (∀ au ak, (get_connected_phones au ak).url = au ++ "/instance/me") ∧
    (∀ au ak, (get_instance_settings au ak).url = au ++ "/instance/settings") ∧
    (∀ au ak, (logout au ak).url = au ++ "/instance/logout") ∧
    (∀ au ak, (restart_instance au ak).url = au ++ "/instance/restart") ∧
    (∀ wu sd w1 w2 w3 w4 au ak, (update_instance_settings wu sd w1 w2 w3 w4 au ak).url =
      au ++ "/instance/settings") ∧
    (∀ au ak, (clear_settings au ak).url = au ++ "/instance/clear") :=
  ⟨fun _ _ _ => rfl, fun _ _ _ _ _ => rfl, fun _ _ _ _ _ _ => rfl, fun _ _ _ _ _ => rfl,
   fun _ _ _ _ _ _ _ => rfl, fun _ _ _ _ _ => rfl, fun _ _ _ _ _ => rfl,
   fun _ _ _ _ _ _ => rfl, fun _ _ _ _ _ => rfl, fun _ _ _ _ _ _ _ => rfl,
   fun _ _ _ _ _ => rfl, fun _ _ _ _ => rfl, fun _ _ _ => rfl, fun _ _ _ => rfl,
   fun _ _ _ => rfl, fun _ _ _ => rfl, fun _ _ _ _ _ _ => rfl, fun _ _ => rfl,
   fun _ _ => rfl, fun _ _ => rfl, fun _ _ => rfl, fun _ _ => rfl, fun _ _ => rfl,
   fun _ _ => rfl, fun _ _ => rfl, fun _ _ _ _ _ _ _ _ => rfl, fun _ _ => rfl⟩
